import Mathlib

/-!
A shallow embedding of the `system-health-monitor` collection pipeline
(`health_monitor/processes.py`, `health_monitor/network.py`,
`health_monitor/logger.py`) together with proofs about its summarisation,
ranking, serializer-selection and error-handling behaviour.

Ambient OS state (a psutil process table or connection table) enters each
embedded function as an explicit argument: a `List (Option _)` models one
psutil enumeration pass, where `none` stands for an item whose per-item read
raised (`NoSuchProcess`, `AccessDenied`, `ZombieProcess`, `AttributeError`)
and was skipped by the source's `except ... continue`.

Python's `list.sort` / `sorted` is a stable sort; a stable sort's output is
uniquely determined by the key preorder and the input order, so it is embedded
exactly by the stable `List.mergeSort`.
-/

namespace HealthMonitor

/-- Python `str.lower()`: character-wise lowering (extensionally
`String.toLower`, stated over the character list so that the kernel can
evaluate it). -/
def pyLower (s : String) : String := String.mk (s.data.map Char.toLower)

/-- `processes.py::enumerate_processes`, lines 37-47: one surviving row of the
per-process dict. CPU/memory percentages and sizes are embedded as rationals
(only their ordering matters to the code under verification). -/
structure ProcessRecord where
  pid : Nat
  name : String
  username : String
  status : String
  cpu_percent : Rat
  memory_percent : Rat
  memory_mb : Rat
  num_threads : Nat
  create_time : Rat
deriving DecidableEq

/-- Python truthiness of the `limit` argument (`None` or an `int`) as tested by
`if limit:` in `enumerate_processes` (line 63): `None` and `0` are falsy. -/
def pyTruthy : Option Int → Bool
  | Option.none => false
  | Option.some l => l != 0

/-- Python slice `xs[:l]` for an integer bound `l`: a negative bound counts
from the end of the list, clamped at zero. -/
def pySliceTo {α : Type} (l : Int) (xs : List α) : List α :=
  if 0 ≤ l then xs.take l.toNat else xs.take (xs.length - (-l).toNat)

/-- The sort dispatch of `enumerate_processes` (lines 52-60). Each branch is
Python `processes.sort(key=..., reverse=...)`: a stable sort, so placing `a`
before `b` exactly when the key order allows it (descending branches compare
reversed, the stable tie order is preserved by `mergeSort`). -/
def sortProcesses (sort_by : String) (processes : List ProcessRecord) : List ProcessRecord :=
  if sort_by == "memory" then
    processes.mergeSort (fun a b => decide (b.memory_percent ≤ a.memory_percent))
  else if sort_by == "cpu" then
    processes.mergeSort (fun a b => decide (b.cpu_percent ≤ a.cpu_percent))
  else if sort_by == "pid" then
    processes.mergeSort (fun a b => decide (a.pid ≤ b.pid))
  else if sort_by == "name" then
    processes.mergeSort (fun a b => decide (pyLower a.name ≤ pyLower b.name))
  else processes

/-- `processes.py::enumerate_processes`: drains one psutil pass (dropping rows
whose detail read raised), sorts by the requested key, and applies
`processes = processes[:limit]` when `limit` is truthy (line 63-64). -/
def enumerate_processes (attempts : List (Option ProcessRecord)) (sort_by : String)
    (limit : Option Int) : List ProcessRecord :=
  let processes := attempts.filterMap id
  let processes := sortProcesses sort_by processes
  if pyTruthy limit then pySliceTo (limit.getD 0) processes else processes

/-- `processes.py::get_process_summary`, lines 81-87: the fixed `status_count`
dict. -/
structure StatusCount where
  running : Nat
  sleeping : Nat
  stopped : Nat
  zombie : Nat
  other : Nat
deriving DecidableEq

/-- One iteration of the summary loop (lines 91-95):
`if status in status_count: status_count[status] += 1 else other += 1`. -/
def bumpStatus (c : StatusCount) (status : String) : StatusCount :=
  if status == "running" then { c with running := c.running + 1 }
  else if status == "sleeping" then { c with sleeping := c.sleeping + 1 }
  else if status == "stopped" then { c with stopped := c.stopped + 1 }
  else if status == "zombie" then { c with zombie := c.zombie + 1 }
  else { c with other := c.other + 1 }

/-- `total = sum(status_count.values())` (line 99). -/
def StatusCount.total (c : StatusCount) : Nat :=
  c.running + c.sleeping + c.stopped + c.zombie + c.other

/-- The dict returned by `get_process_summary` (lines 101-104):
`{"total_processes": total, **status_count}`. -/
structure ProcessSummary where
  total_processes : Nat
  running : Nat
  sleeping : Nat
  stopped : Nat
  zombie : Nat
  other : Nat
deriving DecidableEq

/-- `processes.py::get_process_summary`: its own psutil pass over `status`
fields, with `except (NoSuchProcess, AccessDenied): continue` modelled as the
`none` entries of `attempts`. -/
def get_process_summary (attempts : List (Option String)) : ProcessSummary :=
  let status_count := (attempts.filterMap id).foldl bumpStatus ⟨0, 0, 0, 0, 0⟩
  { total_processes := status_count.total
    running := status_count.running
    sleeping := status_count.sleeping
    stopped := status_count.stopped
    zombie := status_count.zombie
    other := status_count.other }

/-- The dict returned by `processes.py::collect_process_info`. -/
structure ProcessReport where
  summary : ProcessSummary
  top_processes_by_memory : List ProcessRecord
  top_processes_by_cpu : List ProcessRecord

/-- `processes.py::collect_process_info` (lines 117-121). The three calls make
three independent psutil passes, hence the separate `attempts` arguments (the
summary pass reads only `status`). -/
def collect_process_info (statusAttempts : List (Option String))
    (recordAttempts : List (Option ProcessRecord)) (top_n : Int) : ProcessReport :=
  { summary := get_process_summary statusAttempts
    top_processes_by_memory := enumerate_processes recordAttempts "memory" (Option.some top_n)
    top_processes_by_cpu := enumerate_processes recordAttempts "cpu" (Option.some top_n) }

/-- The fields of a raw psutil `sconn` tuple used by
`network.py::collect_network_connections`. `laddr`/`raddr` are `none` when the
address tuple is empty; `pid` is `none` when psutil reports `None`. -/
structure SConn where
  fd : Int
  family : String
  type : String
  laddr : Option (String × Nat)
  raddr : Option (String × Nat)
  status : String
  pid : Option Nat
deriving DecidableEq

/-- One row of `collect_network_connections`' output dict (lines 32-42).
A field the source fills with the string sentinel `"N/A"` is embedded as
`none` for ports and pid, and as the literal `"N/A"` for addresses. -/
structure ConnectionRecord where
  fd : Int
  family : String
  type : String
  local_address : String
  local_port : Option Nat
  remote_address : String
  remote_port : Option Nat
  status : String
  pid : Option Nat
deriving DecidableEq

/-- The dict built for one connection (lines 32-42). Note `conn.pid or "N/A"`:
Python `or` maps both `None` and `0` to the sentinel. -/
def connectionRecordOf (conn : SConn) : ConnectionRecord :=
  { fd := conn.fd
    family := conn.family
    type := conn.type
    local_address := match conn.laddr with
      | Option.some a => a.1
      | Option.none => "N/A"
    local_port := match conn.laddr with
      | Option.some a => Option.some a.2
      | Option.none => Option.none
    remote_address := match conn.raddr with
      | Option.some a => a.1
      | Option.none => "N/A"
    remote_port := match conn.raddr with
      | Option.some a => Option.some a.2
      | Option.none => Option.none
    status := conn.status
    pid := match conn.pid with
      | Option.some p => if p = 0 then Option.none else Option.some p
      | Option.none => Option.none }

/-- The exception `psutil.net_connections` can raise wholesale (line 45). -/
inductive PsutilError where
  | accessDenied
deriving DecidableEq

/-- `network.py::collect_network_connections` (lines 27-49): a wholesale
`psutil.AccessDenied` from `net_connections` is swallowed (`except ... pass`)
leaving `connections = []`; inside the loop, a per-item failure
(`AttributeError`, `AccessDenied`), modelled as a `none` item, is skipped. -/
def collect_network_connections
    (result : Except PsutilError (List (Option SConn))) : List ConnectionRecord :=
  match result with
  | Except.error _ => []
  | Except.ok items => items.filterMap (fun it => it.map connectionRecordOf)

/-- One entry of `listening_ports` (lines 80-84). -/
structure ListeningEntry where
  port : Nat
  address : String
  pid : Option Nat
deriving DecidableEq

/-- Python substring test `needle in hay`. -/
def containsSub (hay needle : String) : Bool :=
  hay.toList.tails.any (fun t => needle.toList.isPrefixOf t)

/-- `defaultdict(int)` increment `m[k] += 1`, preserving Python dict insertion
order (a fresh key is appended at the end with count 1). -/
def bumpCount (m : List (String × Nat)) (k : String) : List (String × Nat) :=
  match m with
  | [] => [(k, 1)]
  | (k2, v) :: rest => if k2 == k then (k2, v + 1) :: rest else (k2, v) :: bumpCount rest k

/-- Reading a counter dict: missing keys count 0 (`defaultdict(int)`). -/
def lookupCount (m : List (String × Nat)) (k : String) : Nat :=
  match m with
  | [] => 0
  | (k2, v) :: rest => if k2 == k then v else lookupCount rest k

/-- `sum(m.values())`. -/
def sumValues (m : List (String × Nat)) : Nat :=
  (m.map (fun kv => kv.2)).sum

/-- Protocol inference of `get_network_summary` (lines 73-76): an
`if ... elif ...` chain, so a type matching `"STREAM"` is never tested for
`"DGRAM"`. -/
def protoStep (m : List (String × Nat)) (conn : ConnectionRecord) : List (String × Nat) :=
  if containsSub conn.type "STREAM" then bumpCount m "TCP"
  else if containsSub conn.type "DGRAM" then bumpCount m "UDP"
  else m

/-- The `listening_ports` contribution of one connection (lines 79-84): kept
only when `status == "LISTEN"` and the local port is not the `"N/A"`
sentinel. -/
def listenEntry (conn : ConnectionRecord) : Option ListeningEntry :=
  if conn.status == "LISTEN" then
    match conn.local_port with
    | Option.some p => Option.some { port := p, address := conn.local_address, pid := conn.pid }
    | Option.none => Option.none
  else Option.none

/-- The three accumulators of the loop in `get_network_summary`
(lines 65-67). -/
structure SummAcc where
  status_count : List (String × Nat)
  protocol_count : List (String × Nat)
  listening_ports : List ListeningEntry

/-- The whole loop body of `get_network_summary` (lines 69-84). -/
def summStep (acc : SummAcc) (conn : ConnectionRecord) : SummAcc :=
  { status_count := bumpCount acc.status_count conn.status
    protocol_count := protoStep acc.protocol_count conn
    listening_ports := acc.listening_ports ++ (listenEntry conn).toList }

/-- The dict returned by `get_network_summary` (lines 86-91). -/
structure NetworkSummary where
  total_connections : Nat
  by_status : List (String × Nat)
  by_protocol : List (String × Nat)
  listening_ports : List ListeningEntry
deriving DecidableEq

/-- The comparison used by
`sorted(listening_ports, key=lambda x: x["port"])`. -/
def portLE (a b : ListeningEntry) : Bool := decide (a.port ≤ b.port)

/-- `network.py::get_network_summary` from an already collected connection
list (everything after line 63). Python's `sorted` is stable, embedded by the
stable `List.mergeSort`. -/
def network_summary_of (connections : List ConnectionRecord) : NetworkSummary :=
  let acc := connections.foldl summStep ⟨[], [], []⟩
  { total_connections := connections.length
    by_status := acc.status_count
    by_protocol := acc.protocol_count
    listening_ports := acc.listening_ports.mergeSort portLE }

/-- `network.py::get_network_summary` (lines 52-91), including its call to
`collect_network_connections`. -/
def get_network_summary (result : Except PsutilError (List (Option SConn))) : NetworkSummary :=
  network_summary_of (collect_network_connections result)

/-- `logger.py::HealthLogger` state set up by `__init__` (lines 16-26); the
`mkdir` side effect is outside the data model. -/
structure HealthLogger where
  output_dir : String
  format : String
deriving DecidableEq

/-- `HealthLogger.__init__`: `self.format = format.lower()` (line 26). -/
def HealthLogger.init (output_dir format : String) : HealthLogger :=
  { output_dir := output_dir, format := pyLower format }

/-- `HealthLogger.generate_filename` (lines 28-37), with the wall-clock
timestamp string passed in. -/
def HealthLogger.generate_filename (logger : HealthLogger) (timestamp : String) : String :=
  let extension := if logger.format == "json" then "json" else "log"
  "health_monitor_" ++ timestamp ++ "." ++ extension

/-- Which of the two formatters `write_log` invokes (lines 176-179). -/
inductive RenderFormat where
  | json
  | text
deriving DecidableEq

/-- The branch `if self.format == "json": ... else: ...` of `write_log`. -/
def HealthLogger.render_choice (logger : HealthLogger) : RenderFormat :=
  if logger.format == "json" then RenderFormat.json else RenderFormat.text

/-- The complete report string `write_log` assembles before any file I/O
(lines 176-179). The two formatters and the enhanced data are the serializer
seam, passed in as functions over an abstract document type. -/
def HealthLogger.write_log_content {Data : Type} (logger : HealthLogger)
    (fmt_json fmt_text : Data → String) (data : Data) : String :=
  if logger.format == "json" then fmt_json data else fmt_text data

/-- The file operations `write_log` performs (lines 185-186):
`open(filepath, "w")` followed by a single `f.write(content)`. -/
inductive FileOp where
  | openTrunc
  | writeStr (s : String)
deriving DecidableEq

/-- The I/O trace of `with open(filepath, "w") as f: f.write(content)`. -/
def write_log_ops (content : String) : List FileOp :=
  [FileOp.openTrunc, FileOp.writeStr content]

/-- Effect of one completed operation on the file at the target path
(`none` = no file): `open(_, "w")` creates or truncates to empty, a completed
`write` appends its whole buffer. -/
def applyOp (st : Option String) (op : FileOp) : Option String :=
  match op with
  | FileOp.openTrunc => Option.some ""
  | FileOp.writeStr s =>
      match st with
      | Option.some cur => Option.some (cur ++ s)
      | Option.none => Option.none

/-- File content after running a list of operations to completion. -/
def fileAfterOps (st : Option String) (ops : List FileOp) : Option String :=
  ops.foldl applyOp st

/-- Effect of an operation interrupted by a fatal fault after `k` progress
units: an interrupted `open` either has not happened (`k = 0`) or has already
truncated; an interrupted `write` has transferred some prefix of its buffer
(POSIX `write` may transfer fewer bytes than requested before failing). -/
def applyOpPartial (st : Option String) (op : FileOp) (k : Nat) : Option String :=
  match op with
  | FileOp.openTrunc => if k = 0 then st else Option.some ""
  | FileOp.writeStr s =>
      match st with
      | Option.some cur => Option.some (cur ++ String.mk (s.toList.take k))
      | Option.none => Option.none

/-- Observable file content when the first `done` operations completed and a
fatal fault interrupts the next one after `k` progress units (if all
operations completed, the fault happened after the write, e.g. at close). -/
def fileAfterFault (st : Option String) (ops : List FileOp) (done k : Nat) : Option String :=
  match ops.drop done with
  | [] => fileAfterOps st ops
  | op :: _ => applyOpPartial (fileAfterOps st (ops.take done)) op k

/-- Recognizer for write operations in an I/O trace. -/
def isWriteOp : FileOp → Bool
  | FileOp.openTrunc => false
  | FileOp.writeStr _ => true

/-- Concrete process records used as failing inputs / witnesses. -/
def p1ex : ProcessRecord :=
  { pid := 1, name := "systemd", username := "root", status := "running"
    cpu_percent := 5, memory_percent := 10, memory_mb := 100
    num_threads := 1, create_time := 0 }

def p2ex : ProcessRecord :=
  { pid := 2, name := "bash", username := "root", status := "sleeping"
    cpu_percent := 7, memory_percent := 3, memory_mb := 50
    num_threads := 1, create_time := 0 }

/-- A connection whose status is `LISTEN` but whose local address tuple was
empty, so `local_port` carries the `"N/A"` sentinel. -/
def c3conn : ConnectionRecord :=
  { fd := 3, family := "AddressFamily.AF_INET", type := "SocketKind.SOCK_STREAM"
    local_address := "N/A", local_port := Option.none
    remote_address := "N/A", remote_port := Option.none
    status := "LISTEN", pid := Option.some 42 }

/-- A connection whose socket-type string contains both `"STREAM"` and
`"DGRAM"`. -/
def c7conn : ConnectionRecord :=
  { fd := 4, family := "AddressFamily.AF_INET", type := "SOCK_STREAM_DGRAM"
    local_address := "127.0.0.1", local_port := Option.some 80
    remote_address := "N/A", remote_port := Option.none
    status := "NONE", pid := Option.some 7 }

/-- The listening-port entries in enumeration order, before sorting: the
connections with status `LISTEN` and a present local port. -/
def listeningRaw (conns : List ConnectionRecord) : List ListeningEntry :=
  conns.filterMap listenEntry

theorem total_bumpStatus (c : StatusCount) (s : String) :
    (bumpStatus c s).total = c.total + 1 := by
  unfold bumpStatus
  split_ifs <;> simp [StatusCount.total] <;> omega

theorem total_foldl_bumpStatus (l : List String) (c : StatusCount) :
    (l.foldl bumpStatus c).total = c.total + l.length := by
  induction l generalizing c with
  | nil => simp
  | cons s l ih =>
    simp only [List.foldl_cons, List.length_cons, ih, total_bumpStatus]
    omega

theorem sumValues_bumpCount (m : List (String × Nat)) (k : String) :
    sumValues (bumpCount m k) = sumValues m + 1 := by
  induction m with
  | nil => rfl
  | cons kv rest ih =>
    obtain ⟨k2, v⟩ := kv
    unfold bumpCount
    split
    · simp [sumValues]
      omega
    · simp only [sumValues, List.map_cons, List.sum_cons] at ih ⊢
      omega

theorem lookupCount_bumpCount (m : List (String × Nat)) (k j : String) :
    lookupCount (bumpCount m k) j = lookupCount m j + (if j = k then 1 else 0) := by
  induction m with
  | nil =>
    by_cases h : j = k
    · subst h
      simp [bumpCount, lookupCount]
    · have h2 : (k == j) = false := by
        simp only [beq_eq_false_iff_ne, ne_eq]
        exact fun hk => h hk.symm
      simp [bumpCount, lookupCount, h, h2]
  | cons kv rest ih =>
    obtain ⟨k2, v⟩ := kv
    by_cases hk : k2 = k
    · subst hk
      by_cases hj : k2 = j
      · subst hj
        simp [bumpCount, lookupCount]
      · have hbj : (k2 == j) = false := by
          simp only [beq_eq_false_iff_ne, ne_eq]
          exact hj
        have hjk : ¬ j = k2 := fun hh => hj hh.symm
        simp [bumpCount, lookupCount, hbj, hjk]
    · have hb : (k2 == k) = false := by
        simp only [beq_eq_false_iff_ne, ne_eq]
        exact hk
      by_cases hj : k2 = j
      · subst hj
        simp [bumpCount, lookupCount, hb, hk]
      · have hbj : (k2 == j) = false := by
          simp only [beq_eq_false_iff_ne, ne_eq]
          exact hj
        simp [bumpCount, lookupCount, hb, hbj, ih]

theorem count_foldl {β : Type} (f : List (String × Nat) → β → List (String × Nat))
    (g : List (String × Nat) → Nat) (p : β → Bool)
    (hstep : ∀ m c, g (f m c) = g m + (if p c then 1 else 0)) :
    ∀ (l : List β) (m0 : List (String × Nat)), g (l.foldl f m0) = g m0 + l.countP p := by
  intro l
  induction l with
  | nil =>
    intro m0
    simp
  | cons c l ih =>
    intro m0
    simp only [List.foldl_cons, ih, hstep, List.countP_cons]
    omega

theorem foldl_summStep_status (l : List ConnectionRecord) :
    ∀ acc : SummAcc, (l.foldl summStep acc).status_count
      = l.foldl (fun m c => bumpCount m c.status) acc.status_count := by
  induction l with
  | nil => intro acc; rfl
  | cons c l ih =>
    intro acc
    simp only [List.foldl_cons, ih]
    rfl

theorem foldl_summStep_proto (l : List ConnectionRecord) :
    ∀ acc : SummAcc, (l.foldl summStep acc).protocol_count
      = l.foldl protoStep acc.protocol_count := by
  induction l with
  | nil => intro acc; rfl
  | cons c l ih =>
    intro acc
    simp only [List.foldl_cons, ih]
    rfl

theorem foldl_summStep_listening (l : List ConnectionRecord) :
    ∀ acc : SummAcc, (l.foldl summStep acc).listening_ports
      = acc.listening_ports ++ l.filterMap listenEntry := by
  induction l with
  | nil =>
    intro acc
    simp
  | cons c l ih =>
    intro acc
    simp only [List.foldl_cons, ih, List.filterMap_cons]
    cases h : listenEntry c <;> simp [summStep, h]

theorem length_sortProcesses (sort_by : String) (ps : List ProcessRecord) :
    (sortProcesses sort_by ps).length = ps.length := by
  unfold sortProcesses
  split_ifs <;> simp [List.length_mergeSort]

theorem portLE_trans :
    ∀ a b c : ListeningEntry, portLE a b = true → portLE b c = true → portLE a c = true := by
  intro a b c
  simp only [portLE, decide_eq_true_eq]
  omega

theorem portLE_total : ∀ a b : ListeningEntry, (portLE a b || portLE b a) = true := by
  intro a b
  simp only [portLE, Bool.or_eq_true, decide_eq_true_eq]
  omega

theorem filter_port_mergeSort (raw : List ListeningEntry) (p : Nat) :
    (raw.mergeSort portLE).filter (fun e => e.port == p)
      = raw.filter (fun e => e.port == p) := by
  have hpair : (raw.filter (fun e => e.port == p)).Pairwise (fun a b => portLE a b = true) := by
    apply List.pairwise_of_forall_mem_list
    intro a ha b hb
    rw [List.mem_filter] at ha hb
    have ha2 : a.port = p := by simpa using ha.2
    have hb2 : b.port = p := by simpa using hb.2
    simp [portLE, ha2, hb2]
  have h1 : List.Sublist (raw.filter (fun e => e.port == p)) (raw.mergeSort portLE) :=
    List.sublist_mergeSort portLE_trans portLE_total hpair (List.filter_sublist raw)
  have hidem : (raw.filter (fun e => e.port == p)).filter (fun e => e.port == p)
      = raw.filter (fun e => e.port == p) :=
    List.filter_eq_self.mpr (fun a ha => (List.mem_filter.mp ha).2)
  have h2 : List.Sublist (raw.filter (fun e => e.port == p))
      ((raw.mergeSort portLE).filter (fun e => e.port == p)) := by
    have h3 := List.Sublist.filter (fun e => e.port == p) h1
    rwa [hidem] at h3
  have hlen : ((raw.mergeSort portLE).filter (fun e => e.port == p)).length
      = (raw.filter (fun e => e.port == p)).length :=
    ((List.mergeSort_perm raw portLE).filter (fun e => e.port == p)).length_eq
  exact (h2.eq_of_length hlen.symm).symm

theorem lookup_protoStep_tcp (m : List (String × Nat)) (c : ConnectionRecord) :
    lookupCount (protoStep m c) "TCP"
      = lookupCount m "TCP" + (if containsSub c.type "STREAM" then 1 else 0) := by
  unfold protoStep
  cases h1 : containsSub c.type "STREAM" with
  | true => simp [lookupCount_bumpCount]
  | false =>
    cases h2 : containsSub c.type "DGRAM" with
    | true => simp [lookupCount_bumpCount]
    | false => simp

theorem lookup_protoStep_udp (m : List (String × Nat)) (c : ConnectionRecord) :
    lookupCount (protoStep m c) "UDP"
      = lookupCount m "UDP"
        + (if (!containsSub c.type "STREAM" && containsSub c.type "DGRAM") then 1 else 0) := by
  unfold protoStep
  cases h1 : containsSub c.type "STREAM" with
  | true => simp [lookupCount_bumpCount, h1]
  | false =>
    cases h2 : containsSub c.type "DGRAM" with
    | true => simp [lookupCount_bumpCount, h1, h2]
    | false => simp [h1, h2]

theorem sum_protoStep (m : List (String × Nat)) (c : ConnectionRecord) :
    sumValues (protoStep m c)
      = sumValues m
        + (if (containsSub c.type "STREAM" || containsSub c.type "DGRAM") then 1 else 0) := by
  unfold protoStep
  cases h1 : containsSub c.type "STREAM" with
  | true => simp [sumValues_bumpCount, h1]
  | false =>
    cases h2 : containsSub c.type "DGRAM" with
    | true => simp [sumValues_bumpCount, h1, h2]
    | false => simp [h1, h2]

/-- C4: the process status summary is exhaustive — every successfully
enumerated process increments exactly one of the buckets
running/sleeping/stopped/zombie/other (unknown statuses fall to `other`) —
and the bucket counts sum exactly to `total_processes`, the number of
processes the enumeration pass returned. -/
theorem c4_status_summary_exhaustive :
    (∀ (c : StatusCount) (s : String), (bumpStatus c s).total = c.total + 1) ∧
    ∀ attempts : List (Option String),
      (get_process_summary attempts).running + (get_process_summary attempts).sleeping
          + (get_process_summary attempts).stopped + (get_process_summary attempts).zombie
          + (get_process_summary attempts).other
        = (get_process_summary attempts).total_processes ∧
      (get_process_summary attempts).total_processes = (attempts.filterMap id).length := by
  refine ⟨total_bumpStatus, fun attempts => ⟨rfl, ?_⟩⟩
  show ((attempts.filterMap id).foldl bumpStatus ⟨0, 0, 0, 0, 0⟩).total = _
  rw [total_foldl_bumpStatus]
  simp [StatusCount.total]

/-- C9: every connection increments exactly one `by_status` bucket, the one
keyed by its status string, and the `by_status` counts sum exactly to
`total_connections`. -/
theorem c9_by_status_total (conns : List ConnectionRecord) :
    sumValues (network_summary_of conns).by_status
      = (network_summary_of conns).total_connections ∧
    ∀ s : String, lookupCount (network_summary_of conns).by_status s
      = conns.countP (fun c => c.status == s) := by
  constructor
  · show sumValues ((conns.foldl summStep ⟨[], [], []⟩).status_count) = conns.length
    rw [foldl_summStep_status]
    have h := count_foldl (fun m c => bumpCount m c.status) sumValues (fun _ => true)
      (fun m c => by
        show sumValues (bumpCount m c.status) = sumValues m + (if true = true then 1 else 0)
        rw [sumValues_bumpCount]
        simp) conns []
    simpa [sumValues] using h
  · intro s
    show lookupCount ((conns.foldl summStep ⟨[], [], []⟩).status_count) s = _
    rw [foldl_summStep_status]
    have h := count_foldl (fun m c => bumpCount m c.status) (fun m => lookupCount m s)
      (fun c => c.status == s)
      (fun m c => by
        show lookupCount (bumpCount m c.status) s
          = lookupCount m s + (if (c.status == s) = true then 1 else 0)
        rw [lookupCount_bumpCount]
        congr 1
        by_cases hh : s = c.status
        · simp [hh]
        · have hh2 : (c.status == s) = false := by
            simp only [beq_eq_false_iff_ne, ne_eq]
            exact fun he => hh he.symm
          simp [hh, hh2]) conns []
    simpa [lookupCount] using h

/-- C6: a wholesale `AccessDenied` from connection enumeration yields an empty
connection set, and the network summary over it is the zero summary; the
collector swallows the failure (it is a total function of the enumeration
outcome) instead of propagating it. -/
theorem c6_access_denied_empty :
    collect_network_connections (Except.error PsutilError.accessDenied) = [] ∧
    get_network_summary (Except.error PsutilError.accessDenied)
      = { total_connections := 0, by_status := [], by_protocol := []
          listening_ports := [] } := by
  constructor
  · rfl
  · show network_summary_of [] = _
    simp [network_summary_of, List.mergeSort_nil]

/-- C7 counterexample: a connection whose socket-type string contains both
`"STREAM"` and `"DGRAM"` does contain `"DGRAM"`, yet the `UDP` bucket is not
incremented (the source's `elif` gives `"STREAM"` priority), refuting the
claim that a type containing `"DGRAM"` increments `by_protocol[UDP]`. -/
theorem c7_counterexample :
    containsSub c7conn.type "DGRAM" = true ∧
    lookupCount (network_summary_of [c7conn]).by_protocol "UDP" = 0 ∧
    lookupCount (network_summary_of [c7conn]).by_protocol "TCP" = 1 := by
  refine ⟨by decide, ?_, ?_⟩
  · show lookupCount (([c7conn].foldl summStep ⟨[], [], []⟩).protocol_count) "UDP" = 0
    decide
  · show lookupCount (([c7conn].foldl summStep ⟨[], [], []⟩).protocol_count) "TCP" = 1
    decide

/-- C7 (amended): protocol inference is a first-match substring test on the
socket type's string form — a type containing `"STREAM"` increments
`by_protocol[TCP]`; one containing `"DGRAM"` but not `"STREAM"` increments
`by_protocol[UDP]`; a type matching neither contributes to
`total_connections` but to no `by_protocol` bucket. -/
theorem c7_amended_protocol_counts (conns : List ConnectionRecord) :
    lookupCount (network_summary_of conns).by_protocol "TCP"
      = conns.countP (fun c => containsSub c.type "STREAM") ∧
    lookupCount (network_summary_of conns).by_protocol "UDP"
      = conns.countP (fun c => !containsSub c.type "STREAM" && containsSub c.type "DGRAM") ∧
    (network_summary_of conns).total_connections = conns.length ∧
    sumValues (network_summary_of conns).by_protocol
      = conns.countP (fun c => containsSub c.type "STREAM" || containsSub c.type "DGRAM") := by
  refine ⟨?_, ?_, rfl, ?_⟩
  · show lookupCount ((conns.foldl summStep ⟨[], [], []⟩).protocol_count) "TCP" = _
    rw [foldl_summStep_proto]
    have h := count_foldl protoStep (fun m => lookupCount m "TCP")
      (fun c => containsSub c.type "STREAM") (fun m c => lookup_protoStep_tcp m c) conns []
    simpa [lookupCount] using h
  · show lookupCount ((conns.foldl summStep ⟨[], [], []⟩).protocol_count) "UDP" = _
    rw [foldl_summStep_proto]
    have h := count_foldl protoStep (fun m => lookupCount m "UDP")
      (fun c => !containsSub c.type "STREAM" && containsSub c.type "DGRAM")
      (fun m c => lookup_protoStep_udp m c) conns []
    simpa [lookupCount] using h
  · show sumValues ((conns.foldl summStep ⟨[], [], []⟩).protocol_count) = _
    rw [foldl_summStep_proto]
    have h := count_foldl protoStep sumValues
      (fun c => containsSub c.type "STREAM" || containsSub c.type "DGRAM")
      (fun m c => sum_protoStep m c) conns []
    simpa [sumValues] using h

/-- C3 counterexample: a connection with status `LISTEN` whose local port is
the `"N/A"` sentinel yields no `listening_ports` entry, refuting the claim
that `listening_ports` contains exactly the connections whose status is
`LISTEN`. -/
theorem c3_counterexample :
    (network_summary_of [c3conn]).listening_ports = [] ∧
    [c3conn].countP (fun c => c.status == "LISTEN") = 1 := by
  constructor
  · show (([c3conn].foldl summStep ⟨[], [], []⟩).listening_ports).mergeSort portLE = []
    have h : ([c3conn].foldl summStep ⟨[], [], []⟩).listening_ports
        = ([] : List ListeningEntry) := by decide
    rw [h]
    exact List.mergeSort_nil
  · decide

/-- C3 (amended): `listening_ports` consists of exactly the connections whose
status is `LISTEN` and whose local port is present (not the `"N/A"`
sentinel), each as a `{port, address, pid}` record; the list is sorted
ascending by port and, for equal ports, keeps the original enumeration order
(stable sort, stated as: filtering any fixed port out of the sorted list
returns exactly the enumeration-ordered entries of that port). -/
theorem c3_amended_listening_ports (conns : List ConnectionRecord) :
    ((network_summary_of conns).listening_ports).Pairwise (fun a b => a.port ≤ b.port) ∧
    ((network_summary_of conns).listening_ports).Perm (listeningRaw conns) ∧
    ∀ p : Nat, ((network_summary_of conns).listening_ports).filter (fun e => e.port == p)
      = (listeningRaw conns).filter (fun e => e.port == p) := by
  have hlp : (network_summary_of conns).listening_ports
      = (listeningRaw conns).mergeSort portLE := by
    show ((conns.foldl summStep ⟨[], [], []⟩).listening_ports).mergeSort portLE = _
    rw [foldl_summStep_listening]
    rfl
  refine ⟨?_, ?_, ?_⟩
  · rw [hlp]
    have h := List.sorted_mergeSort portLE_trans portLE_total (listeningRaw conns)
    exact h.imp (fun hab => by simpa [portLE] using hab)
  · rw [hlp]
    exact List.mergeSort_perm _ _
  · intro p
    rw [hlp]
    exact filter_port_mergeSort _ p

/-- C1 at the failing input: with two surviving enumerated processes and
`top_n = 0`, both ranking lists keep all records (the source's `if limit:`
treats `0` like `None`), while the summary counts are computed
independently. -/
theorem c1_top_n_zero_full_lists :
    (collect_process_info [Option.some "running", Option.some "sleeping"]
        [Option.some p1ex, Option.some p2ex] 0).top_processes_by_memory.length = 2 ∧
    (collect_process_info [Option.some "running", Option.some "sleeping"]
        [Option.some p1ex, Option.some p2ex] 0).top_processes_by_cpu.length = 2 ∧
    (collect_process_info [Option.some "running", Option.some "sleeping"]
        [Option.some p1ex, Option.some p2ex] 0).summary.total_processes = 2 := by
  refine ⟨?_, ?_, by decide⟩
  · show (enumerate_processes [Option.some p1ex, Option.some p2ex] "memory"
        (Option.some 0)).length = 2
    simp [enumerate_processes, pyTruthy, length_sortProcesses]
  · show (enumerate_processes [Option.some p1ex, Option.some p2ex] "cpu"
        (Option.some 0)).length = 2
    simp [enumerate_processes, pyTruthy, length_sortProcesses]

/-- C5 at the failing input: with one surviving record and `limit = 0`,
`enumerate_processes` returns the full (sorted) list instead of the
zero-truncated empty list, because `if limit:` is false for `0`. -/
theorem c5_limit_zero_full_list :
    enumerate_processes [Option.some p1ex] "memory" (Option.some 0) = [p1ex] ∧
    (enumerate_processes [Option.some p1ex] "memory" (Option.some 0)).length ≠ 0 := by
  have h : enumerate_processes [Option.some p1ex] "memory" (Option.some 0) = [p1ex] := by
    simp [enumerate_processes, pyTruthy, sortProcesses, List.mergeSort_singleton]
  exact ⟨h, by rw [h]; simp⟩

/-- C8: a negative `limit` is truthy, so the slice `processes[:limit]` runs
with Python negative-index semantics: the result is the full sorted list (the
`limit = None` result) with its last `abs limit` records removed, of length
`max 0 (count - abs limit)` (truncated subtraction). -/
theorem c8_negative_limit (attempts : List (Option ProcessRecord)) (sort_by : String)
    (L : Int) (h : L < 0) :
    enumerate_processes attempts sort_by (Option.some L)
      = (enumerate_processes attempts sort_by Option.none).take
          ((attempts.filterMap id).length - (-L).toNat) ∧
    (enumerate_processes attempts sort_by (Option.some L)).length
      = (attempts.filterMap id).length - (-L).toNat := by
  have hT : pyTruthy (Option.some L) = true := by
    simp only [pyTruthy, bne_iff_ne, ne_eq]
    omega
  have e1 : enumerate_processes attempts sort_by (Option.some L)
      = pySliceTo L (sortProcesses sort_by (attempts.filterMap id)) := by
    show (if pyTruthy (Option.some L) then
        pySliceTo ((Option.some L).getD 0) (sortProcesses sort_by (attempts.filterMap id))
      else sortProcesses sort_by (attempts.filterMap id)) = _
    rw [hT]
    rfl
  have e2 : enumerate_processes attempts sort_by Option.none
      = sortProcesses sort_by (attempts.filterMap id) := rfl
  have hneg : ¬ (0 ≤ L) := by omega
  have hlen := length_sortProcesses sort_by (attempts.filterMap id)
  rw [e1, e2, pySliceTo, if_neg hneg, hlen]
  refine ⟨rfl, ?_⟩
  rw [List.length_take, hlen]
  omega

/-- Witness for C8 at `limit = -1` over two surviving records. -/
theorem c8_negative_limit_witness :
    enumerate_processes [Option.some p1ex, Option.some p2ex] "pid" (Option.some (-1))
      = (enumerate_processes [Option.some p1ex, Option.some p2ex] "pid" Option.none).take
          (([Option.some p1ex, Option.some p2ex].filterMap id).length - (-(-1 : Int)).toNat) ∧
    (enumerate_processes [Option.some p1ex, Option.some p2ex] "pid"
        (Option.some (-1))).length
      = ([Option.some p1ex, Option.some p2ex].filterMap id).length - (-(-1 : Int)).toNat :=
  c8_negative_limit [Option.some p1ex, Option.some p2ex] "pid" (-1) (by decide)

/-- C10: the output format is lowercased at construction, so selection is
case-insensitive: a format equal to `"json"` ignoring case selects the JSON
rendering and the `.json` extension; every other string falls through to the
text rendering and the `.log` extension. -/
theorem c10_format_case_insensitive (output_dir fmt : String) :
    (HealthLogger.init output_dir fmt).format = pyLower fmt ∧
    (pyLower fmt = pyLower "json" →
      (HealthLogger.init output_dir fmt).render_choice = RenderFormat.json ∧
      ∀ ts : String, (HealthLogger.init output_dir fmt).generate_filename ts
        = "health_monitor_" ++ ts ++ "." ++ "json") ∧
    (pyLower fmt ≠ pyLower "json" →
      (HealthLogger.init output_dir fmt).render_choice = RenderFormat.text ∧
      ∀ ts : String, (HealthLogger.init output_dir fmt).generate_filename ts
        = "health_monitor_" ++ ts ++ "." ++ "log") := by
  have hj : pyLower "json" = "json" := by decide
  rw [hj]
  refine ⟨rfl, fun h => ?_, fun h => ?_⟩
  · constructor
    · simp [HealthLogger.render_choice, HealthLogger.init, h]
    · intro ts
      simp [HealthLogger.generate_filename, HealthLogger.init, h]
  · have hne : ((pyLower fmt) == "json") = false := by
      simp only [beq_eq_false_iff_ne, ne_eq]
      exact h
    constructor
    · simp [HealthLogger.render_choice, HealthLogger.init, hne]
    · intro ts
      simp [HealthLogger.generate_filename, HealthLogger.init, hne]

/-- Witness for C10: `"JSON"` selects the JSON rendering and `.json`
extension; `"Text"` selects the text rendering and `.log` extension. -/
theorem c10_format_case_insensitive_witness :
    ((HealthLogger.init "." "JSON").render_choice = RenderFormat.json ∧
      (HealthLogger.init "." "JSON").generate_filename "20260101_120000"
        = "health_monitor_" ++ "20260101_120000" ++ "." ++ "json") ∧
    ((HealthLogger.init "." "Text").render_choice = RenderFormat.text ∧
      (HealthLogger.init "." "Text").generate_filename "20260101_120000"
        = "health_monitor_" ++ "20260101_120000" ++ "." ++ "log") := by
  constructor
  · have h := (c10_format_case_insensitive "." "JSON").2.1 (by decide)
    exact ⟨h.1, h.2 "20260101_120000"⟩
  · have h := (c10_format_case_insensitive "." "Text").2.2 (by decide)
    exact ⟨h.1, h.2 "20260101_120000"⟩

/-- C2 counterexample: a fatal fault interrupting the single write after one
byte leaves a file that is neither absent nor the complete report — the
in-place truncating write of `write_log` is not atomic. -/
theorem c2_counterexample :
    fileAfterFault Option.none
        (write_log_ops (HealthLogger.write_log_content (HealthLogger.init "." "json")
          (fun _ : Unit => "ab") (fun _ : Unit => "tt") ())) 1 1 ≠ Option.none ∧
    fileAfterFault Option.none
        (write_log_ops (HealthLogger.write_log_content (HealthLogger.init "." "json")
          (fun _ : Unit => "ab") (fun _ : Unit => "tt") ())) 1 1
      ≠ Option.some (HealthLogger.write_log_content (HealthLogger.init "." "json")
          (fun _ : Unit => "ab") (fun _ : Unit => "tt") ()) := by
  constructor
  · decide
  · decide

/-- C2 (amended): `write_log` assembles the whole report in memory and writes
it with exactly one write operation carrying the complete content; on success
the file holds the complete report, and a fatal fault at any point leaves
either no file or some prefix of the report (possibly empty or partial) at
the path — a truncating in-place write, not an atomic complete-or-nothing
one. -/
theorem c2_amended_single_write_prefix {Data : Type} (logger : HealthLogger)
    (fmt_json fmt_text : Data → String) (data : Data) (done k : Nat) :
    (write_log_ops (logger.write_log_content fmt_json fmt_text data)).countP isWriteOp = 1 ∧
    fileAfterOps Option.none (write_log_ops (logger.write_log_content fmt_json fmt_text data))
      = Option.some (logger.write_log_content fmt_json fmt_text data) ∧
    (fileAfterFault Option.none
        (write_log_ops (logger.write_log_content fmt_json fmt_text data)) done k
        = Option.none ∨
      ∃ m : Nat, fileAfterFault Option.none
          (write_log_ops (logger.write_log_content fmt_json fmt_text data)) done k
        = Option.some (String.mk
            ((logger.write_log_content fmt_json fmt_text data).toList.take m))) := by
  generalize logger.write_log_content fmt_json fmt_text data = content
  refine ⟨by simp [write_log_ops, List.countP_cons, isWriteOp], ?_, ?_⟩
  · show applyOp (applyOp Option.none FileOp.openTrunc) (FileOp.writeStr content)
      = Option.some content
    show Option.some ("" ++ content) = Option.some content
    rw [String.empty_append]
  · match done with
    | 0 =>
      by_cases hk : k = 0
      · left
        simp [fileAfterFault, write_log_ops, applyOpPartial, fileAfterOps, hk]
      · right
        refine ⟨0, ?_⟩
        simp [fileAfterFault, write_log_ops, applyOpPartial, fileAfterOps, hk]
    | 1 =>
      right
      refine ⟨k, ?_⟩
      show applyOpPartial (fileAfterOps Option.none [FileOp.openTrunc])
          (FileOp.writeStr content) k = _
      show Option.some ("" ++ String.mk (content.toList.take k)) = _
      rw [String.empty_append]
    | (n + 2) =>
      right
      refine ⟨content.toList.length, ?_⟩
      have hd : (write_log_ops content).drop (n + 2) = [] := by
        simp [write_log_ops]
      unfold fileAfterFault
      rw [hd, List.take_length]
      show Option.some ("" ++ content) = Option.some (String.mk content.data)
      rw [String.empty_append]

end HealthMonitor
